import Mathlib

/-! # Tunnel lifecycle of `mobile/mobile.go`

A shallow embedding of the Go package `mobile`: `StartSocksTunnel` wires a TUN
file descriptor to a SOCKS5 proxy through the lwIP stack of package `core`, and
`StopTunnel` tears the tunnel down.

The Go code is imperative and acts on process-wide state owned by its
collaborators (the handler slots and the output callback of package `core`),
on objects it creates (`*os.File`, `core.LWIPStack`, `*TunnelHandle`) and on a
background goroutine.  The embedding passes a `World` explicitly.  A `World`
holds the process-wide slots, the heap of `TunnelHandle` objects, allocation
counters, and a `trace`: the log, in program order, of every effectful
statement that was executed.
-/

namespace Mobile

/-! ## Data model -/

/-- A `time.Duration`, counted in nanoseconds. -/
abbrev Duration := Nat

/-- Go's `time.Second`. -/
def Second : Duration := 1000000000

/-- Identity of a `core.LWIPStack` instance (the order of creation). -/
abbrev Stack := Nat

/-- A pointer `*TunnelHandle`: an index in the heap of the `World`. -/
abbrev Ptr := Nat

/-- An `*os.File` object: `id` tells apart the objects that successive calls of
`os.NewFile` create, `fd` is the descriptor the object wraps. -/
structure File where
  id : Nat
  fd : Int
deriving DecidableEq, Repr

/-- The value `socks.NewTCPHandler(proxyHost, proxyPort)` returns.  `dialTimeout`
is the dial timeout the caller configured the handler with, `none` when the
constructor call passes no timeout. -/
structure TCPHandler where
  proxyHost : String
  proxyPort : Nat
  dialTimeout : Option Duration
deriving DecidableEq, Repr

/-- The value `socks.NewUDPHandler(proxyHost, proxyPort, timeout)` returns. -/
structure UDPHandler where
  proxyHost : String
  proxyPort : Nat
  timeout : Duration
deriving DecidableEq, Repr

/-- The struct `SocksConfig` of `mobile.go`. -/
structure SocksConfig where
  Host : String
  Port : Int
deriving DecidableEq, Repr

/-- The struct `TunnelHandle` of `mobile.go`.  `stack` and `dev` are Go interface
values, hence nullable. -/
structure TunnelHandle where
  started : Bool
  stack : Option Stack
  dev : Option File
deriving DecidableEq, Repr

/-- The two errors `StartSocksTunnel` builds with `fmt.Errorf`, with the
arguments of the format string. -/
inductive StartError where
  | invalidEndpoint (host : String) (port : Int)
  | fileFromFdFailed (fd : Int)
deriving DecidableEq, Repr

/-- One executed effectful statement. -/
inductive Event where
  | osNewFile (fd : Int)
  | newLWIPStack (s : Stack)
  | registerOutputFn (f : File)
  | registerTCPConnHandler (h : Option TCPHandler)
  | registerUDPConnHandler (h : Option UDPHandler)
  | goCopyBuffer (dst : Stack) (src : File) (bufLen : Nat)
  | stackClose (s : Stack)
  | devClose (f : File)
  | storeStarted (p : Ptr) (b : Bool)
deriving DecidableEq, Repr

/-- The process state the package acts on. -/
structure World where
  /-- Slot `tcpConnHandler` of package `core`. -/
  tcpConnHandler : Option TCPHandler
  /-- Slot `udpConnHandler` of package `core`. -/
  udpConnHandler : Option UDPHandler
  /-- Output callback of package `core`; the callback `StartSocksTunnel` installs
  is the closure writing to the file it captured. -/
  outputFn : Option File
  /-- Number of lwIP stacks created so far. -/
  stackCount : Nat
  /-- Number of `*os.File` objects created so far. -/
  fileCount : Nat
  /-- The allocated `TunnelHandle` objects; a pointer is an index. -/
  heap : List TunnelHandle
  /-- Log of the executed effectful statements, oldest first. -/
  trace : List Event
deriving DecidableEq, Repr

/-- The state of a fresh process. -/
def World.init : World :=
  { tcpConnHandler := none, udpConnHandler := none, outputFn := none,
    stackCount := 0, fileCount := 0, heap := [], trace := [] }

/-- Append one event to the log. -/
def World.log (w : World) (e : Event) : World :=
  { w with trace := w.trace ++ [e] }

/-! ## Collaborators -/

/-- Go standard library, `os.NewFile(uintptr(fd), name)` on Unix: the result is nil
when the descriptor, read back as an `int`, is negative, and a new `*os.File`
otherwise. -/
def os_NewFile (w : World) (fd : Int) : World × Option File :=
  let w1 := w.log (.osNewFile fd)
  if fd < 0 then (w1, none)
  else ({ w1 with fileCount := w1.fileCount + 1 }, some { id := w.fileCount, fd := fd })

/-- Modelled from the spec: `core.NewLWIPStack`, whose body is missing, constructs
a new NetworkStack instance. -/
def NewLWIPStack (w : World) : World × Stack :=
  ({ w.log (.newLWIPStack w.stackCount) with stackCount := w.stackCount + 1 }, w.stackCount)

/-- Modelled from the spec: `core.RegisterOutputFn`, whose body is missing,
installs the output callback of the stack. -/
def RegisterOutputFn (w : World) (f : File) : World :=
  { w.log (.registerOutputFn f) with outputFn := some f }

/-- Modelled from the spec: `core.RegisterTCPConnHandler`, whose body is missing,
sets the process-wide nullable slot "current TCP handler". -/
def RegisterTCPConnHandler (w : World) (h : Option TCPHandler) : World :=
  { w.log (.registerTCPConnHandler h) with tcpConnHandler := h }

/-- Modelled from the spec: `core.RegisterUDPConnHandler`, whose body is missing,
sets the process-wide nullable slot "current UDP handler". -/
def RegisterUDPConnHandler (w : World) (h : Option UDPHandler) : World :=
  { w.log (.registerUDPConnHandler h) with udpConnHandler := h }

/-- Modelled from the spec: `socks.NewTCPHandler(proxyHost, proxyPort)`, whose body
is missing; the constructor has two parameters and no timeout. -/
def NewTCPHandler (proxyHost : String) (proxyPort : Nat) : TCPHandler :=
  { proxyHost := proxyHost, proxyPort := proxyPort, dialTimeout := none }

/-- Modelled from the spec: `socks.NewUDPHandler(proxyHost, proxyPort, timeout)`,
whose body is missing. -/
def NewUDPHandler (proxyHost : String) (proxyPort : Nat) (timeout : Duration) :
    UDPHandler :=
  { proxyHost := proxyHost, proxyPort := proxyPort, timeout := timeout }

/-- Modelled from the spec: `Close` of a `core.LWIPStack`, whose body is missing;
the call is logged, its result is discarded by the caller. -/
def stackClose (w : World) (s : Stack) : World :=
  w.log (.stackClose s)

/-- Go standard library, `Close` of the device; the call is logged, its result is
discarded by the caller. -/
def devClose (w : World) (f : File) : World :=
  w.log (.devClose f)

/-- The statement `go func() { io.CopyBuffer(lwipWriter, f, make([]byte, MTU)) }()`:
the goroutine is spawned and the caller goes on. -/
def goCopyBuffer (w : World) (dst : Stack) (src : File) (bufLen : Nat) : World :=
  w.log (.goCopyBuffer dst src bufLen)

/-- Go's conversion `uint16(port)` of an `int`. -/
def uint16 (port : Int) : Nat :=
  (port % 65536).toNat

/-- The expression `&TunnelHandle{...}`: a new object on the heap. -/
def allocHandle (w : World) (h : TunnelHandle) : World × Ptr :=
  ({ w with heap := w.heap ++ [h] }, w.heap.length)

/-- The statement `h.started = b`. -/
def storeStarted (w : World) (p : Ptr) (b : Bool) : World :=
  match w.heap[p]? with
  | none => w
  | some h => { w.log (.storeStarted p b) with heap := w.heap.set p { h with started := b } }

/-! ## `mobile.go` -/

/-- The constant `dialTimeout` of `StartSocksTunnel`. -/
def dialTimeout : Duration := 5 * Second

/-- The constant `udpTimeout` of `StartSocksTunnel`. -/
def udpTimeout : Duration := 60 * Second

/-- The constant `MTU` of `StartSocksTunnel`. -/
def MTU : Nat := 1500

/-- What `StartSocksTunnel` returns: the pair `(*TunnelHandle, error)`. -/
structure StartResult where
  handle : Option Ptr
  err : Option StartError
deriving DecidableEq, Repr

/-- The function `StartSocksTunnel(fd, host, port)`. -/
def StartSocksTunnel (w : World) (fd : Int) (host : String) (port : Int) :
    World × StartResult :=
  if host = "" ∨ port ≤ 0 ∨ port > 65535 then
    (w, { handle := none, err := some (.invalidEndpoint host port) })
  else
    match os_NewFile w fd with
    | (w1, none) => (w1, { handle := none, err := some (.fileFromFdFailed fd) })
    | (w1, some f) =>
      let (w2, stack) := NewLWIPStack w1
      let w3 := RegisterOutputFn w2 f
      let tcpHandler := NewTCPHandler host (uint16 port)
      let udpHandler := NewUDPHandler host (uint16 port) udpTimeout
      let w4 := RegisterTCPConnHandler w3 (some tcpHandler)
      let w5 := RegisterUDPConnHandler w4 (some udpHandler)
      let w6 := goCopyBuffer w5 stack f MTU
      let (w7, p) := allocHandle w6 { started := true, stack := some stack, dev := some f }
      (w7, { handle := some p, err := none })

/-- The guarded call `if h.stack != nil { h.stack.Close() }`. -/
def closeStackIfSet (w : World) (s : Option Stack) : World :=
  match s with
  | none => w
  | some s => stackClose w s

/-- The guarded call `if h.dev != nil { h.dev.Close() }`. -/
def closeDevIfSet (w : World) (d : Option File) : World :=
  match d with
  | none => w
  | some f => devClose w f

/-- The function `StopTunnel(h)`; `none` is the nil pointer.  A Go pointer always
refers to an allocated object; on an index outside the heap the embedding leaves the
state as it is. -/
def StopTunnel (w : World) (hp : Option Ptr) : World :=
  match hp with
  | none => w
  | some p =>
    match w.heap[p]? with
    | none => w
    | some h =>
      if h.started = false then w
      else
        let w1 := RegisterTCPConnHandler w none
        let w2 := RegisterUDPConnHandler w1 none
        let w3 := closeStackIfSet w2 h.stack
        let w4 := closeDevIfSet w3 h.dev
        storeStarted w4 p false

/-! ## The relay loop

The goroutine of `StartSocksTunnel` runs `io.CopyBuffer(lwipWriter, f, buf)` with a
buffer of `MTU` bytes, where `f` is an `*os.File`.  The device and the stack are
external: the device is given by the results its successive `Read` calls produce,
the stack by the function that answers a `Write` call.  Whether `*os.File` has the
method `WriteTo` depends on the Go release (it has from Go 1.22 on), so that is a
parameter of the copy. -/

/-- A Go `error` value as the copy loop tells them apart. -/
inductive GoError where
  | EOF
  | ErrShortWrite
  | errInvalidWrite
  | other (code : Nat)
deriving DecidableEq, Repr

/-- The result `(nr, er)` of one call `src.Read(buf)`: `data` holds the `nr` bytes
the call reports. -/
structure ReadResult where
  data : List Nat
  err : Option GoError
deriving DecidableEq, Repr

/-- The result `(nw, ew)` of one call `dst.Write(p)`. -/
structure WriteResult where
  nw : Int
  err : Option GoError
deriving DecidableEq, Repr

/-- What is observed of a run of the copy loop: the state of the sink after the
`Write` calls made on it, the arguments of those calls in order, the number of
`Read` calls made, and the running total `written`. -/
structure CopyState (σ : Type) where
  sink : σ
  writes : List (List Nat)
  reads : Nat
  written : Int

/-- How a run of the copy loop ends: it returns `(written, err)`, or the device
has no further result and the pending `Read` blocks, or the run panics. -/
inductive CopyOutcome where
  | returned (written : Int) (err : Option GoError)
  | blocked
  | panicked
deriving DecidableEq, Repr

/-- The tail of one iteration of the loop of `io.copyBuffer`:
`if er != nil { if er != EOF { err = er }; break }`.  The result is `none` when the
loop goes on and the returned error otherwise. -/
def readBreak (er : Option GoError) : Option (Option GoError) :=
  match er with
  | none => none
  | some e => some (if e = GoError.EOF then none else some e)

/-- The adjustment of `(nw, ew)` after `dst.Write(buf[0:nr])` in `io.copyBuffer`:
`if nw < 0 || nr < nw { nw = 0; if ew == nil { ew = errInvalidWrite } }`. -/
def checkWrite (nr : Nat) (r : WriteResult) : WriteResult :=
  if r.nw < 0 ∨ (nr : Int) < r.nw then
    { nw := 0, err := if r.err = none then some GoError.errInvalidWrite else r.err }
  else r

/-- Go standard library, the loop of `io.copyBuffer` on a buffer of `bufLen` bytes.
The list holds the results of the `Read` calls still to come; the loop consumes one
per iteration.  The slice expression `buf[0:nr]` panics when `nr` exceeds the buffer;
otherwise the slice is passed to `dst.Write`, whose answer moves the sink on. -/
def copyLoop {σ : Type} (write : σ → List Nat → σ × WriteResult) (bufLen : Nat) :
    List ReadResult → CopyState σ → CopyState σ × CopyOutcome
  | [], st => (st, .blocked)
  | r :: rest, st =>
    let st1 := { st with reads := st.reads + 1 }
    if 0 < r.data.length then
      if bufLen < r.data.length then (st1, .panicked)
      else
        let res := write st1.sink r.data
        let wr := checkWrite r.data.length res.2
        let st2 : CopyState σ :=
          { st1 with sink := res.1, writes := st1.writes ++ [r.data],
                     written := st1.written + wr.nw }
        match wr.err with
        | some ew => (st2, .returned st2.written (some ew))
        | none =>
          if (r.data.length : Int) ≠ wr.nw then
            (st2, .returned st2.written (some GoError.ErrShortWrite))
          else
            match readBreak r.err with
            | some err => (st2, .returned st2.written err)
            | none => copyLoop write bufLen rest st2
    else
      match readBreak r.err with
      | some err => (st1, .returned st1.written err)
      | none => copyLoop write bufLen rest st1

/-- The size `32 * 1024` of the buffer `io.copyBuffer` allocates when it is given
none. -/
def defaultBufSize : Nat := 32 * 1024

/-- Go standard library, `io.copyBuffer` past its two dispatch tests: the buffer is
the given one, or a new one of `defaultBufSize` bytes `if buf == nil`, and the loop
runs on it.  `buf` is the length of the given buffer, `none` for nil. -/
def copyBufferLoop {σ : Type} (write : σ → List Nat → σ × WriteResult) (sink : σ)
    (src : List ReadResult) (buf : Option Nat) : CopyState σ × CopyOutcome :=
  copyLoop write (buf.getD defaultBufSize) src
    { sink := sink, writes := [], reads := 0, written := 0 }

/-- Go standard library, `(*os.File).WriteTo(w)` for a destination that is not a
socket: `genericWriteTo`, that is `io.Copy(w, fileWithoutWriteTo{f})`, which is
`io.copyBuffer` with the nil buffer on a source without `WriteTo`. -/
def File_WriteTo {σ : Type} (write : σ → List Nat → σ × WriteResult) (sink : σ)
    (src : List ReadResult) : CopyState σ × CopyOutcome :=
  copyBufferLoop write sink src none

/-- Go standard library, `io.copyBuffer(dst, src, buf)` for a source that is an
`*os.File`: `if wt, ok := src.(WriterTo); ok { return wt.WriteTo(dst) }` hands the
copy to the file and the given buffer is not used; otherwise the loop runs on the
given buffer.  Modelled from the spec: the stack exposes a sink that accepts bytes
and nothing else, so the test `dst.(ReaderFrom)` fails. -/
def copyBuffer {σ : Type} (srcWriterTo : Bool) (write : σ → List Nat → σ × WriteResult)
    (sink : σ) (src : List ReadResult) (buf : Option Nat) : CopyState σ × CopyOutcome :=
  if srcWriterTo then File_WriteTo write sink src
  else copyBufferLoop write sink src buf

/-- Go standard library, `io.CopyBuffer(dst, src, buf)`:
`if buf != nil && len(buf) == 0 { panic(...) }`, then `copyBuffer`. -/
def CopyBuffer {σ : Type} (srcWriterTo : Bool) (write : σ → List Nat → σ × WriteResult)
    (sink : σ) (src : List ReadResult) (buf : Option Nat) : CopyState σ × CopyOutcome :=
  if buf = some 0 then
    ({ sink := sink, writes := [], reads := 0, written := 0 }, .panicked)
  else copyBuffer srcWriterTo write sink src buf

/-- The body of the goroutine of `StartSocksTunnel`: the copy from the device to the
stack with the buffer `make([]byte, MTU)`; the flag tells whether `log.Printf`
reports a failure.  `srcWriterTo` tells whether `*os.File` has the method `WriteTo`
in the Go release at hand. -/
def relayLoop {σ : Type} (srcWriterTo : Bool) (write : σ → List Nat → σ × WriteResult)
    (sink : σ) (src : List ReadResult) : CopyState σ × CopyOutcome × Bool :=
  let r := CopyBuffer srcWriterTo write sink src (some MTU)
  match r.2 with
  | .returned _ (some _) => (r.1, r.2, true)
  | _ => (r.1, r.2, false)

/-- A sink that accepts every write in full. -/
def AcceptsInFull {σ : Type} (write : σ → List Nat → σ × WriteResult) : Prop :=
  ∀ s bs, (write s bs).2 = { nw := (bs.length : Int), err := none }

/-- The observation `recv` of the state of a sink shows the bytes the sink has
received: every `Write` appends the bytes it is given. -/
def Records {σ : Type} (write : σ → List Nat → σ × WriteResult) (recv : σ → List Nat) :
    Prop :=
  ∀ s bs, recv (write s bs).1 = recv s ++ bs

/-- A sink whose state is the bytes it has received and that accepts every write in
full. -/
def storeAll (s : List Nat) (bs : List Nat) : List Nat × WriteResult :=
  (s ++ bs, { nw := (bs.length : Int), err := none })

/-- The read result carrying a chunk and no error. -/
def chunk (bs : List Nat) : ReadResult :=
  { data := bs, err := none }

/-- The read result carrying no byte and an error (`io.EOF`, or a failure such as
a closed device). -/
def failed (e : GoError) : ReadResult :=
  { data := [], err := some e }

/-- The state of a sink after one `Write` call per chunk, in order. -/
def writeAll {σ : Type} (write : σ → List Nat → σ × WriteResult) (sink : σ)
    (cs : List (List Nat)) : σ :=
  cs.foldl (fun s c => (write s c).1) sink

/-! ## Observations on the log -/

/-- Number of `Close` calls the log holds for the stack `s`. -/
def stackCloses (s : Stack) (tr : List Event) : Nat :=
  tr.count (.stackClose s)

/-- Number of `Close` calls the log holds for the device `f`. -/
def devCloses (f : File) (tr : List Event) : Nat :=
  tr.count (.devClose f)

/-- The arguments are a valid SOCKS endpoint: the negation of the first test of
`StartSocksTunnel`. -/
def validEndpoint (host : String) (port : Int) : Prop :=
  host ≠ "" ∧ 1 ≤ port ∧ port ≤ 65535

instance (host : String) (port : Int) : Decidable (validEndpoint host port) := by
  unfold validEndpoint; infer_instance

/-- The descriptor is usable: wrapping it yields a file. -/
def usable (w : World) (fd : Int) : Prop :=
  (os_NewFile w fd).2.isSome = true

instance (w : World) (fd : Int) : Decidable (usable w fd) := by
  unfold usable; infer_instance

/-- The world a successful `StartSocksTunnel` leaves. -/
def startedWorld (w : World) (fd : Int) (host : String) (port : Int) : World :=
  { tcpConnHandler := some (NewTCPHandler host (uint16 port)),
    udpConnHandler := some (NewUDPHandler host (uint16 port) udpTimeout),
    outputFn := some { id := w.fileCount, fd := fd },
    stackCount := w.stackCount + 1,
    fileCount := w.fileCount + 1,
    heap := w.heap ++ [{ started := true, stack := some w.stackCount,
                         dev := some { id := w.fileCount, fd := fd } }],
    trace := w.trace ++
      [.osNewFile fd, .newLWIPStack w.stackCount,
       .registerOutputFn { id := w.fileCount, fd := fd },
       .registerTCPConnHandler (some (NewTCPHandler host (uint16 port))),
       .registerUDPConnHandler (some (NewUDPHandler host (uint16 port) udpTimeout)),
       .goCopyBuffer w.stackCount { id := w.fileCount, fd := fd } MTU] }

/-- The events a `StopTunnel` on the running handle `h` at `p` appends to the log, in
program order. -/
def stopEvents (p : Ptr) (h : TunnelHandle) : List Event :=
  [.registerTCPConnHandler none, .registerUDPConnHandler none]
    ++ (h.stack.toList.map Event.stackClose)
    ++ (h.dev.toList.map Event.devClose)
    ++ [.storeStarted p false]

/-- The world a `StopTunnel` on the running handle `h` at `p` leaves. -/
def stoppedWorld (w : World) (p : Ptr) (h : TunnelHandle) : World :=
  { w with
    tcpConnHandler := none,
    udpConnHandler := none,
    heap := w.heap.set p { h with started := false },
    trace := w.trace ++ stopEvents p h }

/-- The handler slots after the events of a log have been applied to the slots
`(tcp, udp)`: only the two registration calls write them. -/
def slotsAfter : Option TCPHandler × Option UDPHandler → List Event →
    Option TCPHandler × Option UDPHandler
  | sl, [] => sl
  | sl, .registerTCPConnHandler h :: tr => slotsAfter (h, sl.2) tr
  | sl, .registerUDPConnHandler h :: tr => slotsAfter (sl.1, h) tr
  | sl, _ :: tr => slotsAfter sl tr


/-! ## Helper lemmas -/

theorem usable_iff (w : World) (fd : Int) : usable w fd ↔ 0 ≤ fd := by
  unfold usable os_NewFile
  by_cases h : fd < 0
  · simp [h]
  · simp [h]; omega

theorem uint16_of_valid (port : Int) (h1 : 1 ≤ port) (h2 : port ≤ 65535) :
    ((uint16 port : Nat) : Int) = port := by
  unfold uint16
  rw [Int.toNat_of_nonneg (by omega)]
  omega

theorem StartSocksTunnel_eq_startedWorld (w : World) (fd : Int) (host : String) (port : Int)
    (hv : validEndpoint host port) (hfd : 0 ≤ fd) :
    StartSocksTunnel w fd host port =
      (startedWorld w fd host port, { handle := some w.heap.length, err := none }) := by
  obtain ⟨h0, h1, h2⟩ := hv
  have hc : ¬ (host = "" ∨ port ≤ 0 ∨ port > 65535) := by
    rintro (h | h | h)
    · exact h0 h
    · omega
    · omega
  have hn : ¬ fd < 0 := by omega
  simp [StartSocksTunnel, hc, os_NewFile, hn, NewLWIPStack, RegisterOutputFn,
    RegisterTCPConnHandler, RegisterUDPConnHandler, goCopyBuffer, allocHandle, World.log,
    startedWorld]

theorem StopTunnel_eq_stoppedWorld (w : World) (p : Ptr) (h : TunnelHandle)
    (hp : w.heap[p]? = some h) (hs : h.started = true) :
    StopTunnel w (some p) = stoppedWorld w p h := by
  obtain ⟨st, sk, dv⟩ := h
  simp only at hs
  subst hs
  cases sk <;> cases dv <;>
    simp [StopTunnel, hp, RegisterTCPConnHandler, RegisterUDPConnHandler, closeStackIfSet,
      closeDevIfSet, stackClose, devClose, storeStarted, World.log, stoppedWorld, stopEvents]

theorem StopTunnel_of_not_started (w : World) (p : Ptr) (h : TunnelHandle)
    (hp : w.heap[p]? = some h) (hs : h.started = false) :
    StopTunnel w (some p) = w := by
  simp [StopTunnel, hp, hs]

theorem StopTunnel_of_dangling (w : World) (p : Ptr) (hp : w.heap[p]? = none) :
    StopTunnel w (some p) = w := by
  simp [StopTunnel, hp]

theorem getElem?_append_pair_fst {α : Type} (l : List α) (a b : α) :
    (l ++ [a, b])[l.length]? = some a := by
  rw [List.getElem?_append_right (Nat.le_refl _)]
  simp

theorem getElem?_append_pair_snd {α : Type} (l : List α) (a b : α) :
    (l ++ [a, b])[l.length + 1]? = some b := by
  rw [List.getElem?_append_right (Nat.le_succ _)]
  simp

theorem set_append_pair_fst {α : Type} (l : List α) (a b c : α) :
    (l ++ [a, b]).set l.length c = l ++ [c, b] := by
  induction l with
  | nil => rfl
  | cons x xs ih => simp [ih]

/-! ## `StartSocksTunnel`: the invalid endpoint -/

/-- C1: for every usable descriptor and every process state, `StartSocksTunnel` fails
if and only if the host is empty, the port is at most 0 or the port is above 65535;
and when the endpoint is invalid in that way the call returns the nil handle and the
whole process state, the log of effects included, is the one it was given: both
handler slots, the output callback, the stack counter and the log are unchanged, so
nothing was wrapped, created, installed, closed or spawned. -/
theorem StartSocksTunnel_fails_iff_invalid_endpoint (w : World) (fd : Int) (host : String)
    (port : Int) (hfd : usable w fd) :
    ((StartSocksTunnel w fd host port).2.err ≠ none ↔
        (host = "" ∨ port ≤ 0 ∨ port > 65535)) ∧
    ((host = "" ∨ port ≤ 0 ∨ port > 65535) →
        StartSocksTunnel w fd host port =
          (w, { handle := none, err := some (.invalidEndpoint host port) })) := by
  have h0 : 0 ≤ fd := (usable_iff w fd).1 hfd
  by_cases hc : host = "" ∨ port ≤ 0 ∨ port > 65535
  · simp [StartSocksTunnel, hc]
  · have hv : validEndpoint host port := by
      unfold validEndpoint
      refine ⟨fun h => hc (Or.inl h), ?_, ?_⟩ <;> by_contra hh <;> apply hc <;> omega
    rw [StartSocksTunnel_eq_startedWorld w fd host port hv h0]
    simp [hc]

theorem StartSocksTunnel_fails_iff_invalid_endpoint_witness :
    usable World.init 3 ∧
    StartSocksTunnel World.init 3 "127.0.0.1" 70000 =
      (World.init, { handle := none, err := some (.invalidEndpoint "127.0.0.1" 70000) }) :=
  ⟨by decide,
   (StartSocksTunnel_fails_iff_invalid_endpoint World.init 3 "127.0.0.1" 70000 (by decide)).2
     (by decide)⟩

/-! ## `StartSocksTunnel`: the valid endpoint -/

/-- C2: for every non-empty host, every port in [1, 65535], every usable descriptor and
every prior process state, `StartSocksTunnel` returns no error and a pointer to a new
handle with `started = true` that references the stack created by this call and the
file wrapping the descriptor; afterwards the TCP slot holds the TCP handler and the UDP
slot the UDP handler built from the given host and from a port number equal to the
given port, whatever the slots held before. -/
theorem StartSocksTunnel_registers_handlers (w : World) (fd : Int) (host : String)
    (port : Int) (hv : validEndpoint host port) (hfd : usable w fd) :
    (StartSocksTunnel w fd host port).2.err = none ∧
    (StartSocksTunnel w fd host port).2.handle = some w.heap.length ∧
    (StartSocksTunnel w fd host port).1.heap =
      w.heap ++ [{ started := true, stack := some w.stackCount,
                   dev := some { id := w.fileCount, fd := fd } }] ∧
    (StartSocksTunnel w fd host port).1.heap[w.heap.length]? =
      some { started := true, stack := some w.stackCount,
             dev := some { id := w.fileCount, fd := fd } } ∧
    Event.newLWIPStack w.stackCount ∈ (StartSocksTunnel w fd host port).1.trace ∧
    (StartSocksTunnel w fd host port).1.stackCount = w.stackCount + 1 ∧
    (StartSocksTunnel w fd host port).1.tcpConnHandler =
      some (NewTCPHandler host port.toNat) ∧
    (StartSocksTunnel w fd host port).1.udpConnHandler =
      some (NewUDPHandler host port.toNat udpTimeout) ∧
    ((uint16 port : Nat) : Int) = port := by
  have h0 : 0 ≤ fd := (usable_iff w fd).1 hfd
  have hu : ((uint16 port : Nat) : Int) = port := uint16_of_valid port hv.2.1 hv.2.2
  have hu2 : uint16 port = port.toNat := by
    have h := congrArg Int.toNat hu
    simpa using h
  have hp0 : 0 ≤ port := by
    have h1 := hv.2.1
    omega
  rw [StartSocksTunnel_eq_startedWorld w fd host port hv h0]
  simp [startedWorld, hu2, hp0]

theorem StartSocksTunnel_registers_handlers_witness :
    validEndpoint "127.0.0.1" 1080 ∧
    usable (StartSocksTunnel World.init 3 "10.0.0.1" 8080).1 4 ∧
    (StartSocksTunnel World.init 3 "10.0.0.1" 8080).1.tcpConnHandler =
      some (NewTCPHandler "10.0.0.1" 8080) ∧
    (StartSocksTunnel (StartSocksTunnel World.init 3 "10.0.0.1" 8080).1 4 "127.0.0.1" 1080).1.tcpConnHandler
      = some (NewTCPHandler "127.0.0.1" 1080) ∧
    (StartSocksTunnel (StartSocksTunnel World.init 3 "10.0.0.1" 8080).1 4 "127.0.0.1" 1080).1.udpConnHandler
      = some (NewUDPHandler "127.0.0.1" 1080 udpTimeout) :=
  have h := StartSocksTunnel_registers_handlers
    (StartSocksTunnel World.init 3 "10.0.0.1" 8080).1 4 "127.0.0.1" 1080 (by decide) (by decide)
  ⟨by decide, by decide, by decide, h.2.2.2.2.2.2.1, h.2.2.2.2.2.2.2.1⟩

/-- C9: for every non-empty host and every port in [1, 65535], when wrapping the
descriptor yields no file, `StartSocksTunnel` returns an error and the nil handle, and
the only effect is the failed call of `os.NewFile`: both handler slots, the output
callback, the stack counter and the heap are unchanged, and the log gains that call
alone, so no stack was created, no callback installed and no relay loop spawned. -/
theorem StartSocksTunnel_unusable_device (w : World) (fd : Int) (host : String) (port : Int)
    (hv : validEndpoint host port) (hfd : ¬ usable w fd) :
    (StartSocksTunnel w fd host port).2 =
      { handle := none, err := some (.fileFromFdFailed fd) } ∧
    (StartSocksTunnel w fd host port).1 = { w with trace := w.trace ++ [.osNewFile fd] } ∧
    (StartSocksTunnel w fd host port).1.tcpConnHandler = w.tcpConnHandler ∧
    (StartSocksTunnel w fd host port).1.udpConnHandler = w.udpConnHandler ∧
    (StartSocksTunnel w fd host port).1.outputFn = w.outputFn ∧
    (StartSocksTunnel w fd host port).1.stackCount = w.stackCount ∧
    (∀ s, Event.newLWIPStack s ∈ (StartSocksTunnel w fd host port).1.trace →
        Event.newLWIPStack s ∈ w.trace) ∧
    (∀ f, Event.registerOutputFn f ∈ (StartSocksTunnel w fd host port).1.trace →
        Event.registerOutputFn f ∈ w.trace) ∧
    (∀ s f n, Event.goCopyBuffer s f n ∈ (StartSocksTunnel w fd host port).1.trace →
        Event.goCopyBuffer s f n ∈ w.trace) := by
  have hneg : fd < 0 := by
    have := (usable_iff w fd).not.1 hfd
    omega
  obtain ⟨h0, h1, h2⟩ := hv
  have hc : ¬ (host = "" ∨ port ≤ 0 ∨ port > 65535) := by
    rintro (h | h | h)
    · exact h0 h
    · omega
    · omega
  simp [StartSocksTunnel, hc, os_NewFile, hneg, World.log]

theorem StartSocksTunnel_unusable_device_witness :
    validEndpoint "127.0.0.1" 1080 ∧ ¬ usable World.init (-1) ∧
    (StartSocksTunnel World.init (-1) "127.0.0.1" 1080).2 =
      { handle := none, err := some (.fileFromFdFailed (-1)) } ∧
    (StartSocksTunnel World.init (-1) "127.0.0.1" 1080).1 =
      { World.init with trace := [.osNewFile (-1)] } :=
  have h := StartSocksTunnel_unusable_device World.init (-1) "127.0.0.1" 1080
    (by decide) (by decide)
  ⟨by decide, by decide, h.1, h.2.1⟩

/-! ## `StopTunnel` -/

/-- C3: for every handle with `started = true`, one call of `StopTunnel` leaves the
handle with `started = false` and its other fields as they were, leaves the TCP and the
UDP handler slot empty, and adds exactly one `Close` call on the stack of the handle
and exactly one `Close` call on the device of the handle to the log. -/
theorem StopTunnel_running_handle (w : World) (p : Ptr) (h : TunnelHandle)
    (hp : w.heap[p]? = some h) (hs : h.started = true) :
    (StopTunnel w (some p)).heap[p]? = some { h with started := false } ∧
    (StopTunnel w (some p)).tcpConnHandler = none ∧
    (StopTunnel w (some p)).udpConnHandler = none ∧
    (∀ s, h.stack = some s →
        stackCloses s (StopTunnel w (some p)).trace = stackCloses s w.trace + 1) ∧
    (∀ f, h.dev = some f →
        devCloses f (StopTunnel w (some p)).trace = devCloses f w.trace + 1) := by
  have hlt : p < w.heap.length := by
    rcases Nat.lt_or_ge p w.heap.length with hl | hl
    · exact hl
    · rw [List.getElem?_eq_none hl] at hp
      cases hp
  rw [StopTunnel_eq_stoppedWorld w p h hp hs]
  refine ⟨?_, rfl, rfl, ?_, ?_⟩
  · simp [stoppedWorld, hlt]
  · intro s hst
    cases hd : h.dev <;>
      simp [stoppedWorld, stopEvents, stackCloses, hst, hd, List.count_cons]
  · intro f hdv
    cases hk : h.stack <;>
      simp [stoppedWorld, stopEvents, devCloses, hdv, hk, List.count_cons]

theorem StopTunnel_running_handle_witness :
    (StartSocksTunnel World.init 3 "127.0.0.1" 1080).1.heap[0]? =
      some { started := true, stack := some 0, dev := some { id := 0, fd := 3 } } ∧
    (StopTunnel (StartSocksTunnel World.init 3 "127.0.0.1" 1080).1 (some 0)).heap[0]? =
      some { started := false, stack := some 0, dev := some { id := 0, fd := 3 } } :=
  ⟨by decide,
   (StopTunnel_running_handle (StartSocksTunnel World.init 3 "127.0.0.1" 1080).1 0
      { started := true, stack := some 0, dev := some { id := 0, fd := 3 } }
      (by decide) rfl).1⟩

/-- C4: for every process state, `StopTunnel` called with the nil pointer, or with a
pointer to a handle whose `started` flag is false, returns the process state it was
given: the handler slots, the heap of handles and the log of effects are unchanged, so
no `Close` call is issued. -/
theorem StopTunnel_nil_or_not_started (w : World) (hp : Option Ptr)
    (hno : hp = none ∨ ∃ p h, hp = some p ∧ w.heap[p]? = some h ∧ h.started = false) :
    StopTunnel w hp = w := by
  rcases hno with rfl | ⟨p, h, rfl, hh, hs⟩
  · rfl
  · exact StopTunnel_of_not_started w p h hh hs

theorem StopTunnel_nil_or_not_started_witness :
    (StartSocksTunnel (StopTunnel (StartSocksTunnel World.init 3 "10.0.0.1" 8080).1 (some 0))
        4 "127.0.0.1" 1080).1.heap[0]? =
      some { started := false, stack := some 0, dev := some { id := 0, fd := 3 } } ∧
    (StartSocksTunnel (StopTunnel (StartSocksTunnel World.init 3 "10.0.0.1" 8080).1 (some 0))
        4 "127.0.0.1" 1080).1.tcpConnHandler = some (NewTCPHandler "127.0.0.1" 1080) ∧
    StopTunnel
        (StartSocksTunnel (StopTunnel (StartSocksTunnel World.init 3 "10.0.0.1" 8080).1 (some 0))
          4 "127.0.0.1" 1080).1 (some 0) =
      (StartSocksTunnel (StopTunnel (StartSocksTunnel World.init 3 "10.0.0.1" 8080).1 (some 0))
        4 "127.0.0.1" 1080).1 :=
  ⟨by decide, by decide,
   StopTunnel_nil_or_not_started
     (StartSocksTunnel (StopTunnel (StartSocksTunnel World.init 3 "10.0.0.1" 8080).1 (some 0))
        4 "127.0.0.1" 1080).1 (some 0)
     (Or.inr ⟨0, { started := false, stack := some 0, dev := some { id := 0, fd := 3 } },
        rfl, by decide, rfl⟩)⟩

/-- C5: `StopTunnel` is idempotent: for every process state and every pointer (nil, to
a handle that is not started, or to a running handle), two calls in a row leave the
same process state as one call: the same heap of handles, the same handler slots and
the same log, hence the same number of `Close` calls on every stack and every device. -/
theorem StopTunnel_idempotent (w : World) (hp : Option Ptr) :
    StopTunnel (StopTunnel w hp) hp = StopTunnel w hp ∧
    (∀ s, stackCloses s (StopTunnel (StopTunnel w hp) hp).trace =
        stackCloses s (StopTunnel w hp).trace) ∧
    (∀ f, devCloses f (StopTunnel (StopTunnel w hp) hp).trace =
        devCloses f (StopTunnel w hp).trace) := by
  have key : StopTunnel (StopTunnel w hp) hp = StopTunnel w hp := by
    cases hp with
    | none => rfl
    | some p =>
      cases hh : w.heap[p]? with
      | none => rw [StopTunnel_of_dangling w p hh, StopTunnel_of_dangling w p hh]
      | some h =>
        cases hs : h.started with
        | false =>
          rw [StopTunnel_of_not_started w p h hh hs, StopTunnel_of_not_started w p h hh hs]
        | true =>
          have hlt : p < w.heap.length := by
            rcases Nat.lt_or_ge p w.heap.length with hl | hl
            · exact hl
            · rw [List.getElem?_eq_none hl] at hh
              cases hh
          rw [StopTunnel_eq_stoppedWorld w p h hh hs]
          apply StopTunnel_of_not_started _ p { h with started := false }
          · simp [stoppedWorld, hlt]
          · rfl
  refine ⟨key, ?_, ?_⟩
  · intro s; rw [key]
  · intro f; rw [key]

/-- C6: for every running handle, the effects of `StopTunnel` are appended to the log
in this order: the TCP slot is cleared, the UDP slot is cleared, the stack is closed,
the device is closed, `started` is set to false.  Hence at every `Close` of a stack both
slots are empty, every `Close` of the device comes after the `Close` of the stack of
the handle, and the store to `started` is the last effect. -/
theorem StopTunnel_effect_order (w : World) (p : Ptr) (h : TunnelHandle)
    (hp : w.heap[p]? = some h) (hs : h.started = true) :
    ∃ new : List Event,
      (StopTunnel w (some p)).trace = w.trace ++ new ∧
      new = [Event.registerTCPConnHandler none, Event.registerUDPConnHandler none]
              ++ h.stack.toList.map Event.stackClose
              ++ h.dev.toList.map Event.devClose
              ++ [Event.storeStarted p false] ∧
      (∀ s f, h.stack = some s → h.dev = some f →
          new = [Event.registerTCPConnHandler none, Event.registerUDPConnHandler none,
                 Event.stackClose s, Event.devClose f, Event.storeStarted p false]) ∧
      (∀ pre post s, new = pre ++ Event.stackClose s :: post →
          slotsAfter (w.tcpConnHandler, w.udpConnHandler) pre = (none, none)) ∧
      (∀ pre post f, new = pre ++ Event.devClose f :: post →
          slotsAfter (w.tcpConnHandler, w.udpConnHandler) pre = (none, none) ∧
          ∀ s, h.stack = some s → Event.stackClose s ∈ pre) ∧
      (∀ pre post b, new = pre ++ Event.storeStarted p b :: post →
          b = false ∧ post = [] ∧
          (∀ s, h.stack = some s → Event.stackClose s ∈ pre) ∧
          (∀ f, h.dev = some f → Event.devClose f ∈ pre)) := by
  refine ⟨stopEvents p h, ?_, rfl, ?_, ?_, ?_, ?_⟩
  · rw [StopTunnel_eq_stoppedWorld w p h hp hs]
    rfl
  · intro s f hst hdv
    simp [stopEvents, hst, hdv]
  · intro pre post s hsplit
    replace hsplit := hsplit.symm
    cases hk : h.stack <;> cases hd : h.dev <;>
      simp only [stopEvents, hk, hd, Option.toList, List.map, List.append_nil,
        List.cons_append, List.nil_append] at hsplit <;>
      rcases pre with _ | ⟨a, _ | ⟨b, _ | ⟨c, _ | ⟨d, _ | ⟨e, pre⟩⟩⟩⟩⟩ <;>
      simp_all [slotsAfter]
  · intro pre post f hsplit
    replace hsplit := hsplit.symm
    cases hk : h.stack <;> cases hd : h.dev <;>
      simp only [stopEvents, hk, hd, Option.toList, List.map, List.append_nil,
        List.cons_append, List.nil_append] at hsplit <;>
      rcases pre with _ | ⟨a, _ | ⟨b, _ | ⟨c, _ | ⟨d, _ | ⟨e, pre⟩⟩⟩⟩⟩ <;>
      simp_all [slotsAfter]
  · intro pre post b hsplit
    replace hsplit := hsplit.symm
    cases hk : h.stack <;> cases hd : h.dev <;>
      simp only [stopEvents, hk, hd, Option.toList, List.map, List.append_nil,
        List.cons_append, List.nil_append] at hsplit <;>
      rcases pre with _ | ⟨a, _ | ⟨b, _ | ⟨c, _ | ⟨d, _ | ⟨e, pre⟩⟩⟩⟩⟩ <;>
      simp_all

theorem StopTunnel_effect_order_witness :
    (StartSocksTunnel World.init 3 "127.0.0.1" 1080).1.heap[0]? =
      some { started := true, stack := some 0, dev := some { id := 0, fd := 3 } } ∧
    ∃ new : List Event,
      (StopTunnel (StartSocksTunnel World.init 3 "127.0.0.1" 1080).1 (some 0)).trace =
        (StartSocksTunnel World.init 3 "127.0.0.1" 1080).1.trace ++ new ∧
      new = [Event.registerTCPConnHandler none, Event.registerUDPConnHandler none,
             Event.stackClose 0, Event.devClose { id := 0, fd := 3 },
             Event.storeStarted 0 false] :=
  ⟨by decide,
   (StopTunnel_effect_order (StartSocksTunnel World.init 3 "127.0.0.1" 1080).1 0
      { started := true, stack := some 0, dev := some { id := 0, fd := 3 } }
      (by decide) rfl).imp (fun _ hn => ⟨hn.1, hn.2.1⟩)⟩

/-! ## The timeouts of the handlers -/

/-- C7: on the valid configuration `fd = 3`, host `127.0.0.1`, port `1080`, the TCP
handler that `StartSocksTunnel` registers is built from the host and the port alone and
carries no dial timeout, although the constant `dialTimeout` is 5 seconds; the UDP
handler carries the timeout of 60 seconds. -/
theorem StartSocksTunnel_tcp_handler_has_no_dialTimeout :
    (StartSocksTunnel World.init 3 "127.0.0.1" 1080).1.tcpConnHandler =
      some { proxyHost := "127.0.0.1", proxyPort := 1080, dialTimeout := none } ∧
    (StartSocksTunnel World.init 3 "127.0.0.1" 1080).1.tcpConnHandler ≠
      some { proxyHost := "127.0.0.1", proxyPort := 1080, dialTimeout := some dialTimeout } ∧
    dialTimeout = 5 * Second ∧
    (StartSocksTunnel World.init 3 "127.0.0.1" 1080).1.udpConnHandler =
      some { proxyHost := "127.0.0.1", proxyPort := 1080, timeout := 60 * Second } := by
  refine ⟨by decide, by decide, rfl, by decide⟩

/-! ## Two tunnels -/

/-- C10: `StopTunnel` clears the handler slots whoever registered them.  For every two
successful starts A then B with no stop in between, `StopTunnel` on the handle of A
leaves both handler slots empty, while the handle of B, a different object, still has
`started = true` and no `Close` call has been added for the stack or the device of B: a
running handle whose handlers are not registered. -/
theorem StopTunnel_of_first_clears_handlers_of_second (w wA wB : World) (rA rB : StartResult)
    (fdA fdB : Int) (hostA hostB : String) (portA portB : Int)
    (hvA : validEndpoint hostA portA) (hfA : usable w fdA)
    (hvB : validEndpoint hostB portB) (hfB : usable wA fdB)
    (hA : StartSocksTunnel w fdA hostA portA = (wA, rA))
    (hB : StartSocksTunnel wA fdB hostB portB = (wB, rB)) :
    ∃ (pA pB : Ptr) (sB : Stack) (fB : File),
      rA = { handle := some pA, err := none } ∧
      rB = { handle := some pB, err := none } ∧
      pA ≠ pB ∧
      wB.tcpConnHandler = some (NewTCPHandler hostB portB.toNat) ∧
      wB.udpConnHandler = some (NewUDPHandler hostB portB.toNat udpTimeout) ∧
      wB.heap[pB]? = some { started := true, stack := some sB, dev := some fB } ∧
      (StopTunnel wB rA.handle).tcpConnHandler = none ∧
      (StopTunnel wB rA.handle).udpConnHandler = none ∧
      ((StopTunnel wB rA.handle).heap[pA]?).map TunnelHandle.started = some false ∧
      (StopTunnel wB rA.handle).heap[pB]? =
        some { started := true, stack := some sB, dev := some fB } ∧
      stackCloses sB (StopTunnel wB rA.handle).trace = stackCloses sB w.trace ∧
      devCloses fB (StopTunnel wB rA.handle).trace = devCloses fB w.trace := by
  have h0A : 0 ≤ fdA := (usable_iff w fdA).1 hfA
  have h0B : 0 ≤ fdB := (usable_iff wA fdB).1 hfB
  rw [StartSocksTunnel_eq_startedWorld w fdA hostA portA hvA h0A] at hA
  rw [StartSocksTunnel_eq_startedWorld wA fdB hostB portB hvB h0B] at hB
  obtain ⟨rfl, rfl⟩ := Prod.mk.inj hA
  obtain ⟨rfl, rfl⟩ := Prod.mk.inj hB
  have huB : uint16 portB = portB.toNat := by
    have h := congrArg Int.toNat (uint16_of_valid portB hvB.2.1 hvB.2.2)
    simpa using h
  have hheap : (startedWorld (startedWorld w fdA hostA portA) fdB hostB portB).heap =
      w.heap ++ [{ started := true, stack := some w.stackCount,
                   dev := some { id := w.fileCount, fd := fdA } },
                 { started := true, stack := some (w.stackCount + 1),
                   dev := some { id := w.fileCount + 1, fd := fdB } }] := by
    simp [startedWorld]
  have hpA : (startedWorld (startedWorld w fdA hostA portA) fdB hostB portB).heap[w.heap.length]?
      = some { started := true, stack := some w.stackCount,
               dev := some { id := w.fileCount, fd := fdA } } := by
    rw [hheap, getElem?_append_pair_fst]
  have hstop : (stoppedWorld (startedWorld (startedWorld w fdA hostA portA) fdB hostB portB)
        w.heap.length { started := true, stack := some w.stackCount,
                        dev := some { id := w.fileCount, fd := fdA } }).heap =
      w.heap ++ [{ started := false, stack := some w.stackCount,
                   dev := some { id := w.fileCount, fd := fdA } },
                 { started := true, stack := some (w.stackCount + 1),
                   dev := some { id := w.fileCount + 1, fd := fdB } }] := by
    show List.set _ _ _ = _
    rw [hheap, set_append_pair_fst]
  refine ⟨w.heap.length, w.heap.length + 1, w.stackCount + 1,
    { id := w.fileCount + 1, fd := fdB }, rfl, ?_, ?_, ?_, ?_, ?_, ?_⟩
  · simp [startedWorld]
  · exact Nat.ne_of_lt (Nat.lt_succ_self _)
  · simp [startedWorld, huB]
  · simp [startedWorld, huB]
  · rw [hheap, getElem?_append_pair_snd]
  · rw [StopTunnel_eq_stoppedWorld _ _ _ hpA rfl]
    refine ⟨rfl, rfl, ?_, ?_, ?_, ?_⟩
    · rw [hstop, getElem?_append_pair_fst]
      rfl
    · rw [hstop, getElem?_append_pair_snd]
    · simp [stoppedWorld, startedWorld, stopEvents, stackCloses, List.count_cons]
    · simp [stoppedWorld, startedWorld, stopEvents, devCloses, List.count_cons]

theorem StopTunnel_of_first_clears_handlers_of_second_witness :
    validEndpoint "10.0.0.1" 8080 ∧ validEndpoint "127.0.0.1" 1080 ∧
    usable World.init 3 ∧
    ∃ (pA pB : Ptr) (sB : Stack) (fB : File),
      (StartSocksTunnel World.init 3 "10.0.0.1" 8080).2 = { handle := some pA, err := none } ∧
      (StartSocksTunnel (StartSocksTunnel World.init 3 "10.0.0.1" 8080).1 4 "127.0.0.1" 1080).2
        = { handle := some pB, err := none } ∧
      (StopTunnel
          (StartSocksTunnel (StartSocksTunnel World.init 3 "10.0.0.1" 8080).1 4 "127.0.0.1" 1080).1
          (StartSocksTunnel World.init 3 "10.0.0.1" 8080).2.handle).tcpConnHandler = none ∧
      (StopTunnel
          (StartSocksTunnel (StartSocksTunnel World.init 3 "10.0.0.1" 8080).1 4 "127.0.0.1" 1080).1
          (StartSocksTunnel World.init 3 "10.0.0.1" 8080).2.handle).heap[pB]? =
        some { started := true, stack := some sB, dev := some fB } :=
  ⟨by decide, by decide, by decide,
   (StopTunnel_of_first_clears_handlers_of_second World.init _ _ _ _ 3 4 "10.0.0.1" "127.0.0.1"
      8080 1080 (by decide) (by decide) (by decide) (by decide) rfl rfl).imp
    (fun _ h1 => h1.imp (fun _ h2 => h2.imp (fun _ h3 => h3.imp (fun _ h4 =>
      ⟨h4.1, h4.2.1, h4.2.2.2.2.2.2.1, h4.2.2.2.2.2.2.2.2.2.1⟩))))⟩

/-! ## The relay loop -/

theorem copyLoop_failed {σ : Type} (write : σ → List Nat → σ × WriteResult) (bufLen : Nat)
    (e : GoError) (rest : List ReadResult) (st : CopyState σ) :
    copyLoop write bufLen (failed e :: rest) st =
      ({ st with reads := st.reads + 1 },
       .returned st.written (if e = GoError.EOF then none else some e)) := by
  simp [copyLoop, failed, readBreak]

theorem copyLoop_empty_chunk {σ : Type} (write : σ → List Nat → σ × WriteResult)
    (bufLen : Nat) (rest : List ReadResult) (st : CopyState σ) :
    copyLoop write bufLen (chunk [] :: rest) st =
      copyLoop write bufLen rest { st with reads := st.reads + 1 } := by
  simp [copyLoop, chunk, readBreak]

theorem copyLoop_chunk {σ : Type} (write : σ → List Nat → σ × WriteResult) (bufLen : Nat)
    (hw : AcceptsInFull write) (c : List Nat) (hc : 0 < c.length) (hb : c.length ≤ bufLen)
    (rest : List ReadResult) (st : CopyState σ) :
    copyLoop write bufLen (chunk c :: rest) st =
      copyLoop write bufLen rest
        { sink := (write st.sink c).1, writes := st.writes ++ [c], reads := st.reads + 1,
          written := st.written + (c.length : Int) } := by
  have hwr := hw st.sink c
  have hn : ¬ ((c.length : Int) < 0) := by omega
  have hb2 : ¬ bufLen < c.length := by omega
  simp [copyLoop, chunk, hc, hwr, checkWrite, readBreak, hn, hb2]

theorem copyLoop_oversized_chunk {σ : Type} (write : σ → List Nat → σ × WriteResult)
    (bufLen : Nat) (c : List Nat) (hb : bufLen < c.length)
    (rest : List ReadResult) (st : CopyState σ) :
    copyLoop write bufLen (chunk c :: rest) st =
      ({ st with reads := st.reads + 1 }, .panicked) := by
  have hc : 0 < c.length := by omega
  simp [copyLoop, chunk, hc, hb]

theorem copyLoop_chunks {σ : Type} (write : σ → List Nat → σ × WriteResult) (bufLen : Nat)
    (hw : AcceptsInFull write) (e : GoError) (rest : List ReadResult) :
    ∀ (chunks : List (List Nat)) (st : CopyState σ), (∀ c ∈ chunks, c.length ≤ bufLen) →
      copyLoop write bufLen (chunks.map chunk ++ failed e :: rest) st =
        ({ sink := writeAll write st.sink (chunks.filter (fun c => decide (0 < c.length))),
           writes := st.writes ++ chunks.filter (fun c => decide (0 < c.length)),
           reads := st.reads + chunks.length + 1,
           written := st.written + (chunks.flatten.length : Int) },
         .returned (st.written + (chunks.flatten.length : Int))
           (if e = GoError.EOF then none else some e)) := by
  intro chunks
  induction chunks with
  | nil =>
    intro st _
    rw [List.map_nil, List.nil_append, copyLoop_failed]
    simp [writeAll]
  | cons c cs ih =>
    intro st hlen
    have hcs : ∀ c ∈ cs, c.length ≤ bufLen := fun x hx => hlen x (List.mem_cons_of_mem _ hx)
    have hcb : c.length ≤ bufLen := hlen c (List.mem_cons_self _ _)
    rw [List.map_cons, List.cons_append]
    by_cases hc : 0 < c.length
    · rw [copyLoop_chunk write bufLen hw c hc hcb, ih _ hcs]
      simp [List.filter_cons, hc, writeAll, Nat.add_assoc, Nat.add_comm, Nat.add_left_comm,
        Int.add_assoc]
    · have h0 : c = [] := by
        cases c with
        | nil => rfl
        | cons x xs => simp at hc
      subst h0
      rw [copyLoop_empty_chunk, ih _ hcs]
      simp [Nat.add_assoc, Nat.add_comm, Nat.add_left_comm]

theorem flatten_filter_nonempty (chunks : List (List Nat)) :
    (chunks.filter (fun c => decide (0 < c.length))).flatten = chunks.flatten := by
  induction chunks with
  | nil => rfl
  | cons c cs ih =>
    cases c with
    | nil => simpa using ih
    | cons x xs => simp [List.filter_cons, ih]

theorem recv_writeAll {σ : Type} (write : σ → List Nat → σ × WriteResult)
    (recv : σ → List Nat) (hr : Records write recv) :
    ∀ (cs : List (List Nat)) (sink : σ),
      recv (writeAll write sink cs) = recv sink ++ cs.flatten := by
  intro cs
  induction cs with
  | nil => intro sink; simp [writeAll]
  | cons c cs ih =>
    intro sink
    have h := ih (write sink c).1
    simp only [writeAll, List.foldl_cons] at h ⊢
    rw [h, hr sink c]
    simp

theorem relayLoop_eq_copyLoop {σ : Type} (srcWriterTo : Bool)
    (write : σ → List Nat → σ × WriteResult) (sink : σ) (src : List ReadResult) :
    CopyBuffer srcWriterTo write sink src (some MTU) =
      copyLoop write (if srcWriterTo then defaultBufSize else MTU) src
        { sink := sink, writes := [], reads := 0, written := 0 } := by
  have hm : (some MTU : Option Nat) ≠ some 0 := by decide
  cases srcWriterTo <;> simp [CopyBuffer, hm, copyBuffer, File_WriteTo, copyBufferLoop]

theorem relayLoop_read_beyond_buffer {σ : Type} (write : σ → List Nat → σ × WriteResult)
    (sink : σ) (c : List Nat) (rest : List ReadResult) (hc : MTU < c.length) :
    (relayLoop false write sink (chunk c :: rest)).2.1 = CopyOutcome.panicked := by
  simp only [relayLoop, relayLoop_eq_copyLoop, Bool.false_eq_true, if_false]
  rw [copyLoop_oversized_chunk write MTU c hc]

theorem relayLoop_read_beyond_MTU_with_WriteTo {σ : Type}
    (write : σ → List Nat → σ × WriteResult) (sink : σ) (c : List Nat) (e : GoError)
    (rest : List ReadResult) (hw : AcceptsInFull write) (h0 : 0 < c.length)
    (hc : c.length ≤ defaultBufSize) :
    (relayLoop true write sink (chunk c :: failed e :: rest)).1.sink = (write sink c).1 := by
  simp only [relayLoop, relayLoop_eq_copyLoop, if_true]
  rw [copyLoop_chunk write defaultBufSize hw c h0 hc, copyLoop_failed]
  by_cases he : e = GoError.EOF
  · subst he
    simp
  · simp [he]

/-- C8: when the reads of the device produce the chunks `chunks` (each of at most `MTU`
bytes) and then fail with the end of the stream or with an error, and the sink accepts
every write in full, the relay loop returns, whether or not `*os.File` has `WriteTo`.
The sink is then in the state that one `Write` call per non-empty chunk, in order,
leaves it in, and those are the `Write` calls made; so for every sink that records
what it receives, the bytes received are the bytes it held before followed by the
concatenation of the chunks, in order and unmodified.  The loop has made one `Read`
call per chunk and one for the failure, so whatever the device would produce
afterwards is neither read nor forwarded; a failure other than the end of the stream
is reported. -/
theorem relayLoop_forwards_chunks {σ : Type} (srcWriterTo : Bool)
    (write : σ → List Nat → σ × WriteResult)
    (sink : σ) (chunks : List (List Nat)) (e : GoError) (rest : List ReadResult)
    (hw : AcceptsInFull write) (hlen : ∀ c ∈ chunks, c.length ≤ MTU) :
    ∃ st : CopyState σ,
      relayLoop srcWriterTo write sink (chunks.map chunk ++ failed e :: rest) =
        (st,
         .returned (chunks.flatten.length : Int) (if e = GoError.EOF then none else some e),
         decide (e ≠ GoError.EOF)) ∧
      st.sink = writeAll write sink (chunks.filter (fun c => decide (0 < c.length))) ∧
      st.writes = chunks.filter (fun c => decide (0 < c.length)) ∧
      st.writes.flatten = chunks.flatten ∧
      st.reads = chunks.length + 1 ∧
      (∀ recv : σ → List Nat, Records write recv →
          recv st.sink = recv sink ++ chunks.flatten) := by
  have hbuf : ∀ c ∈ chunks, c.length ≤ (if srcWriterTo then defaultBufSize else MTU) := by
    intro c hc
    have h1 := hlen c hc
    have h2 : MTU ≤ defaultBufSize := by decide
    cases srcWriterTo
    · simpa using h1
    · simpa using Nat.le_trans h1 h2
  have hrun := copyLoop_chunks write _ hw e rest chunks
    { sink := sink, writes := [], reads := 0, written := 0 } hbuf
  refine ⟨{ sink := writeAll write sink (chunks.filter (fun c => decide (0 < c.length))),
            writes := chunks.filter (fun c => decide (0 < c.length)),
            reads := chunks.length + 1, written := (chunks.flatten.length : Int) },
    ?_, rfl, rfl, flatten_filter_nonempty chunks, rfl, ?_⟩
  · simp only [relayLoop, relayLoop_eq_copyLoop, hrun]
    by_cases he : e = GoError.EOF
    · subst he
      simp
    · simp [he]
  · intro recv hr
    show recv (writeAll write sink _) = _
    rw [recv_writeAll write recv hr, flatten_filter_nonempty]

theorem relayLoop_forwards_chunks_witness :
    AcceptsInFull storeAll ∧ Records storeAll id ∧
    ∃ st : CopyState (List Nat),
      relayLoop true storeAll [] ([[1, 2], [], [3]].map chunk ++ failed GoError.EOF :: [chunk [9]]) =
        (st, .returned (([[1, 2], [], [3]] : List (List Nat)).flatten.length : Int)
               (if GoError.EOF = GoError.EOF then none else some GoError.EOF),
         decide (GoError.EOF ≠ GoError.EOF)) ∧
      st.sink = [1, 2, 3] ∧
      st.writes = [[1, 2], [3]] ∧
      st.reads = 4 :=
  ⟨fun _ _ => rfl, fun _ _ => rfl,
   (relayLoop_forwards_chunks true storeAll [] [[1, 2], [], [3]] GoError.EOF [chunk [9]]
      (fun _ _ => rfl) (by decide)).imp
     (fun _ h => ⟨h.1, (h.2.2.2.2.2 id (fun _ _ => rfl)).trans (by decide),
        h.2.2.1.trans (by decide), h.2.2.2.2.1⟩)⟩

end Mobile
